import Mathlib

/-!
Verification of `include/gadget/buffer.h` (dual-mode event buffer).

Shallow embedding of the 48-line BPF header: `gadget_reserve_buf` and
`gadget_submit_buf`, which select between a ring-buffer transport and a
per-CPU scratch-slot + perf-event-output transport based on a one-time
capability probe (`bpf_core_type_exists(struct bpf_ringbuf)`).

The kernel helpers (`bpf_ringbuf_reserve`, `bpf_ringbuf_submit`,
`bpf_perf_event_output`, `bpf_map_lookup_elem`) are external collaborators
of this header; they are modelled here from their documented semantics
(finite-capacity FIFO record channel; per-event output relaying a status
code).  The two header functions themselves are translated line by line.
-/

namespace Buffer

/-- Capacity of the scratch slot, the header's `MAX_EVENT_SIZE` (10240). -/
def MAX_EVENT_SIZE : Nat := 10240

/-- Flag word `BPF_F_CURRENT_CPU` passed to `bpf_perf_event_output`. -/
def BPF_F_CURRENT_CPU : Nat := 0xffffffff

/-- A handle returned by `gadget_reserve_buf` (the C `void *`): either a
reserved ring-buffer record (identified by its reservation id) or the
pointer to the single per-CPU scratch slot (`gadget_heap` cell 0). -/
inductive BufHandle
  | queueRec (id : Nat)
  | slotPtr
deriving DecidableEq, Repr

/-- One event delivered through `bpf_perf_event_output`: the execution
context, the perf map reference, the flags word and the copied bytes. -/
structure PerfEvent where
  ctx : Nat
  mapRef : Nat
  flags : Nat
  data : List Nat
deriving DecidableEq, Repr

/-- The environment state visible to the header's two functions:
the one-time capability flag, the ring-buffer channel (capacity, bytes in
use, reserved records, consumer-visible FIFO queue), the `gadget_heap`
per-CPU scratch slot for the current execution unit, and the
perf-event-output side (delivered events and the status code the
mechanism reports).  `junk` is the arbitrary garbage a fresh ring-buffer
record contains (record contents are not zero-initialized). -/
structure BpfState where
  capability : Bool
  ringbufCap : Nat
  ringbufUsed : Nat
  reservedRecs : List (List Nat)
  ringbufQueue : List (List Nat)
  heapInit : Bool
  heap : List Nat
  perfEvents : List PerfEvent
  perfStatus : Int
  junk : Nat → Nat → Nat

/-- Modelled from the spec: `bpf_ringbuf_reserve(map, size, 0)` — the
queue-like transport's reservation.  If the channel has capacity for
`size` more bytes it allocates a fresh record of exactly `size` bytes
(contents arbitrary, taken from `junk`) and returns its id; otherwise it
fails and leaves the channel untouched (no internal retry). -/
def bpf_ringbuf_reserve (s : BpfState) (size : Nat) : Option Nat × BpfState :=
  if s.ringbufUsed + size ≤ s.ringbufCap then
    (some s.reservedRecs.length,
     { s with
        reservedRecs := s.reservedRecs ++ [(List.range size).map (s.junk s.reservedRecs.length)],
        ringbufUsed := s.ringbufUsed + size })
  else
    (none, s)

/-- Modelled from the spec: `bpf_ringbuf_submit(buf, 0)` — publishes a
previously reserved record to the channel; the record becomes visible to
the consumer in FIFO order relative to this producer's submissions. -/
def bpf_ringbuf_submit (s : BpfState) (h : BufHandle) : BpfState :=
  match h with
  | BufHandle.queueRec id =>
      { s with ringbufQueue := s.ringbufQueue ++ [s.reservedRecs.getD id []] }
  | BufHandle.slotPtr => s

/-- Modelled from the spec: `bpf_map_lookup_elem(&gadget_heap, &zero)` —
looks up the single scratch slot at constant index 0; fails only when the
slot table was not initialized (fatal configuration error). -/
def bpf_map_lookup_elem_heap (s : BpfState) : Option BufHandle :=
  if s.heapInit then some BufHandle.slotPtr else none

/-- Modelled from the spec: `bpf_perf_event_output(ctx, map, BPF_F_CURRENT_CPU,
buf, size)` — copies `size` bytes from the region behind `h` into the
per-event output mechanism addressed by the execution context and relays
the mechanism's status code unchanged. -/
def bpf_perf_event_output (s : BpfState) (ctx mapRef : Nat) (h : BufHandle)
    (size : Nat) : Int × BpfState :=
  let bytes := match h with
    | BufHandle.slotPtr => s.heap.take size
    | BufHandle.queueRec id => (s.reservedRecs.getD id []).take size
  (s.perfStatus,
   { s with perfEvents := s.perfEvents ++ [⟨ctx, mapRef, BPF_F_CURRENT_CPU, bytes⟩] })

/-- Embeds `gadget_reserve_buf(void *map, __u64 size)`:

    if (bpf_core_type_exists(struct bpf_ringbuf))
        return bpf_ringbuf_reserve(map, size, 0);
    return bpf_map_lookup_elem(&gadget_heap, &zero);

The capability probe is the `capability` field (resolved once per load,
never mutated).  The `mapRef` argument addresses the ring buffer held in
the state. -/
def gadget_reserve_buf (s : BpfState) (mapRef : Nat) (size : Nat) :
    Option BufHandle × BpfState :=
  if s.capability then
    match bpf_ringbuf_reserve s size with
    | (some id, s') => (some (BufHandle.queueRec id), s')
    | (none, s') => (none, s')
  else
    (bpf_map_lookup_elem_heap s, s)

/-- Embeds `gadget_submit_buf(void *ctx, void *map, void *buf, __u64 size)`:

    if (bpf_core_type_exists(struct bpf_ringbuf)) {
        bpf_ringbuf_submit(buf, 0);
        return 0;
    }
    return bpf_perf_event_output(ctx, map, BPF_F_CURRENT_CPU, buf, size);
-/
def gadget_submit_buf (s : BpfState) (ctx mapRef : Nat) (h : BufHandle)
    (size : Nat) : Int × BpfState :=
  if s.capability then
    (0, bpf_ringbuf_submit s h)
  else
    bpf_perf_event_output s ctx mapRef h size

/-- The caller writing `data.length` bytes at the start of the region
behind a handle (the step between reserve and submit). -/
def writeBuf (s : BpfState) (h : BufHandle) (data : List Nat) : BpfState :=
  match h with
  | BufHandle.slotPtr =>
      { s with heap := data ++ s.heap.drop data.length }
  | BufHandle.queueRec id =>
      { s with reservedRecs :=
          s.reservedRecs.set id (data ++ (s.reservedRecs.getD id []).drop data.length) }

/-- One full reserve / write / submit cycle for `data` (the caller pattern
the header is designed for).  When reserve fails the caller skips the
event and the state is left as reserve left it. -/
def emit (ctx mapRef : Nat) (s : BpfState) (data : List Nat) : BpfState :=
  match gadget_reserve_buf s mapRef data.length with
  | (some h, s₁) => (gadget_submit_buf (writeBuf s₁ h data) ctx mapRef h data.length).2
  | (none, s₁) => s₁

/-- A sequence of reserve / write / submit cycles from one execution unit. -/
def emitAll (ctx mapRef : Nat) (s : BpfState) (datas : List (List Nat)) : BpfState :=
  datas.foldl (emit ctx mapRef) s

/-- A concrete initial state used by the concrete instantiations below:
ring buffer of 4096 bytes, empty, initialized heap slot of
`MAX_EVENT_SIZE` zero bytes, perf mechanism reporting status 0. -/
def testState (cap : Bool) : BpfState where
  capability := cap
  ringbufCap := 4096
  ringbufUsed := 0
  reservedRecs := []
  ringbufQueue := []
  heapInit := true
  heap := List.replicate MAX_EVENT_SIZE 0
  perfEvents := []
  perfStatus := 0
  junk := fun _ _ => 7

/-- Appending one element and reading it back at the old length. -/
theorem getD_concat (l : List (List Nat)) (a : List Nat) :
    (l ++ [a]).getD l.length [] = a := by
  induction l with
  | nil => rfl
  | cons x xs ih => simp [ih]

/-- Appending one element and overwriting it at the old length. -/
theorem set_concat (l : List (List Nat)) (a b : List Nat) :
    (l ++ [a]).set l.length b = l ++ [b] := by
  induction l with
  | nil => rfl
  | cons x xs ih => simp [ih]

/-- C3: in slot mode (capability false), with the slot table initialized,
every reservation of a size within the slot capacity returns the same
fixed slot handle (the single `gadget_heap` cell at constant index 0)
and changes nothing in the state — no new resource is allocated — so a
repeated reservation returns the same backing memory. -/
theorem slot_reserve_fixed_slot (s : BpfState) (mapRef size size₂ : Nat)
    (hcap : s.capability = false) (hinit : s.heapInit = true)
    (hsize : size ≤ MAX_EVENT_SIZE) :
    gadget_reserve_buf s mapRef size = (some BufHandle.slotPtr, s) ∧
    gadget_reserve_buf (gadget_reserve_buf s mapRef size).2 mapRef size₂ =
      (some BufHandle.slotPtr, s) := by
  simp [gadget_reserve_buf, bpf_map_lookup_elem_heap, hcap, hinit]

/-- C3 witness: concrete slot-mode state, sizes 64 and 128. -/
theorem slot_reserve_fixed_slot_witness :
    (testState false).capability = false ∧ (testState false).heapInit = true ∧
    64 ≤ MAX_EVENT_SIZE ∧
    (gadget_reserve_buf (testState false) 5 64 = (some BufHandle.slotPtr, testState false) ∧
     gadget_reserve_buf (gadget_reserve_buf (testState false) 5 64).2 5 128 =
       (some BufHandle.slotPtr, testState false)) :=
  ⟨rfl, rfl, by decide, slot_reserve_fixed_slot (testState false) 5 64 128 rfl rfl (by decide)⟩

/-- C9: slot-mode reserve performs no size check: for every requested
size, even one strictly greater than `MAX_EVENT_SIZE`, it succeeds and
returns the fixed slot; with an initialized slot table the null-result
branch is unreachable, so slot-mode reserve never fails. -/
theorem slot_reserve_no_size_check (s : BpfState) (mapRef size : Nat)
    (hcap : s.capability = false) (hinit : s.heapInit = true) :
    (gadget_reserve_buf s mapRef size).1 = some BufHandle.slotPtr ∧
    (gadget_reserve_buf s mapRef size).1 ≠ none ∧
    (MAX_EVENT_SIZE < size → gadget_reserve_buf s mapRef size = (some BufHandle.slotPtr, s)) := by
  simp [gadget_reserve_buf, bpf_map_lookup_elem_heap, hcap, hinit]

/-- C9 witness: concrete slot-mode state, oversized request of 20000 bytes. -/
theorem slot_reserve_no_size_check_witness :
    (testState false).capability = false ∧ (testState false).heapInit = true ∧
    ((gadget_reserve_buf (testState false) 3 20000).1 = some BufHandle.slotPtr ∧
     (gadget_reserve_buf (testState false) 3 20000).1 ≠ none ∧
     (MAX_EVENT_SIZE < 20000 →
       gadget_reserve_buf (testState false) 3 20000 = (some BufHandle.slotPtr, testState false))) :=
  ⟨rfl, rfl, slot_reserve_no_size_check (testState false) 3 20000 rfl rfl⟩

/-- C4: in queue mode (capability true), submit publishes the record to
the channel and returns 0 for every input; it never reports data loss. -/
theorem queue_submit_returns_zero (s : BpfState) (ctx mapRef size : Nat)
    (h : BufHandle) (hcap : s.capability = true) :
    gadget_submit_buf s ctx mapRef h size = (0, bpf_ringbuf_submit s h) ∧
    (gadget_submit_buf s ctx mapRef h size).1 = 0 := by
  simp [gadget_submit_buf, hcap]

/-- C4 witness: concrete queue-mode state and handle. -/
theorem queue_submit_returns_zero_witness :
    (testState true).capability = true ∧
    (gadget_submit_buf (testState true) 1 2 (BufHandle.queueRec 0) 9 =
       (0, bpf_ringbuf_submit (testState true) (BufHandle.queueRec 0)) ∧
     (gadget_submit_buf (testState true) 1 2 (BufHandle.queueRec 0) 9).1 = 0) :=
  ⟨rfl, queue_submit_returns_zero (testState true) 1 2 9 (BufHandle.queueRec 0) rfl⟩

/-- C10: in queue mode the result of submit (return value and new state)
does not depend on the execution-context, map or size arguments: two
invocations on the same state and handle with different ctx, map and
size are observably identical. -/
theorem queue_submit_arg_independent (s : BpfState) (h : BufHandle)
    (ctx₁ mapRef₁ size₁ ctx₂ mapRef₂ size₂ : Nat) (hcap : s.capability = true) :
    gadget_submit_buf s ctx₁ mapRef₁ h size₁ = gadget_submit_buf s ctx₂ mapRef₂ h size₂ := by
  simp [gadget_submit_buf, hcap]

/-- C10 witness: differing ctx, map and size on a concrete queue-mode state. -/
theorem queue_submit_arg_independent_witness :
    (testState true).capability = true ∧
    gadget_submit_buf (testState true) 1 2 (BufHandle.queueRec 0) 3 =
      gadget_submit_buf (testState true) 40 50 (BufHandle.queueRec 0) 60 :=
  ⟨rfl, queue_submit_arg_independent (testState true) (BufHandle.queueRec 0) 1 2 3 40 50 60 rfl⟩

/-- C6: in queue mode, when the ring buffer has no capacity for the
requested size, reserve returns failure (no handle) and leaves the whole
state — in particular the channel — unchanged; no retry happens inside
the component. -/
theorem queue_reserve_exhausted (s : BpfState) (mapRef size : Nat)
    (hcap : s.capability = true)
    (hfull : s.ringbufCap < s.ringbufUsed + size) :
    gadget_reserve_buf s mapRef size = (none, s) := by
  have hnot : ¬ s.ringbufUsed + size ≤ s.ringbufCap := by omega
  simp [gadget_reserve_buf, bpf_ringbuf_reserve, hcap, hnot]

/-- C6 witness: request of 5000 bytes against a 4096-byte channel. -/
theorem queue_reserve_exhausted_witness :
    (testState true).capability = true ∧
    (testState true).ringbufCap < (testState true).ringbufUsed + 5000 ∧
    gadget_reserve_buf (testState true) 2 5000 = (none, testState true) :=
  ⟨rfl, by decide, queue_reserve_exhausted (testState true) 2 5000 rfl (by decide)⟩

/-- C5: in slot mode, submit copies exactly `size` bytes from the slot
region into the per-event output mechanism, invoked with the execution
context, the channel reference, the data and the `BPF_F_CURRENT_CPU`
flag, and relays the mechanism's status code unchanged. -/
theorem slot_submit_relays_status (s : BpfState) (ctx mapRef size : Nat)
    (hcap : s.capability = false) (hlen : s.heap.length = MAX_EVENT_SIZE)
    (hsize : size ≤ MAX_EVENT_SIZE) :
    gadget_submit_buf s ctx mapRef BufHandle.slotPtr size =
      (s.perfStatus,
       { s with perfEvents :=
           s.perfEvents ++ [⟨ctx, mapRef, BPF_F_CURRENT_CPU, s.heap.take size⟩] }) ∧
    (s.heap.take size).length = size := by
  refine ⟨by simp [gadget_submit_buf, bpf_perf_event_output, hcap], ?_⟩
  simp [hlen]
  omega

/-- C5 witness: concrete slot-mode state, size 64. -/
theorem slot_submit_relays_status_witness :
    (testState false).capability = false ∧
    (testState false).heap.length = MAX_EVENT_SIZE ∧ 64 ≤ MAX_EVENT_SIZE ∧
    (gadget_submit_buf (testState false) 7 8 BufHandle.slotPtr 64 =
       ((testState false).perfStatus,
        { testState false with perfEvents :=
            (testState false).perfEvents ++
              [⟨7, 8, BPF_F_CURRENT_CPU, (testState false).heap.take 64⟩] }) ∧
     ((testState false).heap.take 64).length = 64) :=
  ⟨rfl, by simp [testState], by decide,
   slot_submit_relays_status (testState false) 7 8 64 rfl (by simp [testState]) (by decide)⟩

/-- C1: in slot mode, for any payload within the slot capacity, reserve
followed by writing the payload followed by submit delivers exactly
those bytes, unmodified, to the per-event output mechanism addressed by
the execution context. -/
theorem slot_roundtrip_delivers (s : BpfState) (ctx mapRef : Nat) (data : List Nat)
    (hcap : s.capability = false) (hinit : s.heapInit = true)
    (hsize : data.length ≤ MAX_EVENT_SIZE) :
    ∃ h s₁, gadget_reserve_buf s mapRef data.length = (some h, s₁) ∧
      ((gadget_submit_buf (writeBuf s₁ h data) ctx mapRef h data.length).2).perfEvents
        = s.perfEvents ++ [⟨ctx, mapRef, BPF_F_CURRENT_CPU, data⟩] := by
  refine ⟨BufHandle.slotPtr, s, ?_, ?_⟩
  · simp [gadget_reserve_buf, bpf_map_lookup_elem_heap, hcap, hinit]
  · simp [gadget_submit_buf, writeBuf, bpf_perf_event_output, hcap, List.take_left]

/-- C1 witness: two bytes of 0xAB through a concrete slot-mode state. -/
theorem slot_roundtrip_delivers_witness :
    (testState false).capability = false ∧ (testState false).heapInit = true ∧
    ([171, 171] : List Nat).length ≤ MAX_EVENT_SIZE ∧
    (∃ h s₁,
      gadget_reserve_buf (testState false) 9 ([171, 171] : List Nat).length = (some h, s₁) ∧
      ((gadget_submit_buf (writeBuf s₁ h [171, 171]) 4 9 h
          ([171, 171] : List Nat).length).2).perfEvents
        = (testState false).perfEvents ++ [⟨4, 9, BPF_F_CURRENT_CPU, [171, 171]⟩]) :=
  ⟨rfl, rfl, by decide,
   slot_roundtrip_delivers (testState false) 4 9 [171, 171] rfl rfl (by decide)⟩

/-- C2: in queue mode, reserve requests a record of exactly `size` bytes
from the ring buffer (the channel's byte accounting grows by exactly
`size`) and on success returns a queue-tagged handle wrapping a region
of exactly `size` bytes whose contents are the arbitrary garbage `junk`,
not zeroes. -/
theorem queue_reserve_exact_size (s : BpfState) (mapRef size : Nat)
    (hcap : s.capability = true) (hfit : s.ringbufUsed + size ≤ s.ringbufCap) :
    ∃ s₁, gadget_reserve_buf s mapRef size =
        (some (BufHandle.queueRec s.reservedRecs.length), s₁) ∧
      s₁.reservedRecs.getD s.reservedRecs.length [] =
        (List.range size).map (s.junk s.reservedRecs.length) ∧
      (s₁.reservedRecs.getD s.reservedRecs.length []).length = size ∧
      s₁.ringbufUsed = s.ringbufUsed + size := by
  refine ⟨{ s with
      reservedRecs := s.reservedRecs ++
        [(List.range size).map (s.junk s.reservedRecs.length)],
      ringbufUsed := s.ringbufUsed + size }, ?_, ?_, ?_, rfl⟩
  · simp [gadget_reserve_buf, bpf_ringbuf_reserve, hcap, hfit]
  · simpa using getD_concat s.reservedRecs _
  · simp [getD_concat]

/-- C2 witness: a 5-byte reservation on a concrete queue-mode state. -/
theorem queue_reserve_exact_size_witness :
    (testState true).capability = true ∧
    (testState true).ringbufUsed + 5 ≤ (testState true).ringbufCap ∧
    (∃ s₁, gadget_reserve_buf (testState true) 6 5 =
        (some (BufHandle.queueRec (testState true).reservedRecs.length), s₁) ∧
      s₁.reservedRecs.getD (testState true).reservedRecs.length [] =
        (List.range 5).map ((testState true).junk (testState true).reservedRecs.length) ∧
      (s₁.reservedRecs.getD (testState true).reservedRecs.length []).length = 5 ∧
      s₁.ringbufUsed = (testState true).ringbufUsed + 5) :=
  ⟨rfl, by decide, queue_reserve_exact_size (testState true) 6 5 rfl (by decide)⟩

/-- C7: the capability flag is never mutated by reserve, write or submit,
so within one execution reserve and submit always take matching
branches: a handle produced under capability true is a queue-tagged
record and submit on the post-reserve state takes the ring-buffer
branch; a handle produced under capability false is the slot pointer and
submit takes the perf-event-output branch. -/
theorem capability_branches_match (s : BpfState) (ctx mapRef size size₂ : Nat)
    (data : List Nat) (h : BufHandle)
    (hres : (gadget_reserve_buf s mapRef size).1 = some h) :
    ((gadget_reserve_buf s mapRef size).2).capability = s.capability ∧
    (writeBuf s h data).capability = s.capability ∧
    ((gadget_submit_buf s ctx mapRef h size₂).2).capability = s.capability ∧
    (s.capability = true → (∃ id, h = BufHandle.queueRec id) ∧
      gadget_submit_buf ((gadget_reserve_buf s mapRef size).2) ctx mapRef h size₂ =
        (0, bpf_ringbuf_submit ((gadget_reserve_buf s mapRef size).2) h)) ∧
    (s.capability = false → h = BufHandle.slotPtr ∧
      gadget_submit_buf ((gadget_reserve_buf s mapRef size).2) ctx mapRef h size₂ =
        bpf_perf_event_output ((gadget_reserve_buf s mapRef size).2) ctx mapRef h size₂) := by
  by_cases hc : s.capability
  · by_cases hf : s.ringbufUsed + size ≤ s.ringbufCap
    · have hh : h = BufHandle.queueRec s.reservedRecs.length := by
        simp [gadget_reserve_buf, bpf_ringbuf_reserve, hc, hf] at hres
        exact hres.symm
      subst hh
      refine ⟨?_, ?_, ?_, fun _ => ⟨⟨_, rfl⟩, ?_⟩, fun hc' => by simp [hc] at hc'⟩
      · simp [gadget_reserve_buf, bpf_ringbuf_reserve, hc, hf]
      · simp [writeBuf]
      · simp [gadget_submit_buf, bpf_ringbuf_submit, hc]
      · simp [gadget_submit_buf, gadget_reserve_buf, bpf_ringbuf_reserve, hc, hf]
    · simp [gadget_reserve_buf, bpf_ringbuf_reserve, hc, hf] at hres
  · have hi : s.heapInit = true := by
      by_cases hi : s.heapInit
      · exact hi
      · simp [gadget_reserve_buf, bpf_map_lookup_elem_heap, hc, hi] at hres
    have hh : h = BufHandle.slotPtr := by
      simp [gadget_reserve_buf, bpf_map_lookup_elem_heap, hc, hi] at hres
      exact hres.symm
    subst hh
    refine ⟨?_, ?_, ?_, fun hc' => by simp [hc'] at hc, fun _ => ⟨rfl, ?_⟩⟩
    · simp [gadget_reserve_buf, bpf_map_lookup_elem_heap, hc, hi]
    · simp [writeBuf]
    · simp [gadget_submit_buf, bpf_perf_event_output, hc]
    · simp [gadget_submit_buf, gadget_reserve_buf, bpf_map_lookup_elem_heap, hc, hi]

/-- C7 witness: concrete queue-mode state, reservation of 8 bytes. -/
theorem capability_branches_match_witness :
    (gadget_reserve_buf (testState true) 2 8).1 = some (BufHandle.queueRec 0) ∧
    (((gadget_reserve_buf (testState true) 2 8).2).capability = (testState true).capability ∧
     (writeBuf (testState true) (BufHandle.queueRec 0) [1, 2]).capability
        = (testState true).capability ∧
     ((gadget_submit_buf (testState true) 3 2 (BufHandle.queueRec 0) 8).2).capability
        = (testState true).capability ∧
     ((testState true).capability = true →
        (∃ id, BufHandle.queueRec 0 = BufHandle.queueRec id) ∧
        gadget_submit_buf ((gadget_reserve_buf (testState true) 2 8).2) 3 2
            (BufHandle.queueRec 0) 8 =
          (0, bpf_ringbuf_submit ((gadget_reserve_buf (testState true) 2 8).2)
                (BufHandle.queueRec 0))) ∧
     ((testState true).capability = false → BufHandle.queueRec 0 = BufHandle.slotPtr ∧
        gadget_submit_buf ((gadget_reserve_buf (testState true) 2 8).2) 3 2
            (BufHandle.queueRec 0) 8 =
          bpf_perf_event_output ((gadget_reserve_buf (testState true) 2 8).2) 3 2
            (BufHandle.queueRec 0) 8)) :=
  ⟨rfl, capability_branches_match (testState true) 3 2 8 8 [1, 2] (BufHandle.queueRec 0) rfl⟩

/-- Closed form of one reserve / write / submit cycle in queue mode with
enough free capacity: the payload is appended to the channel's FIFO
queue and the byte accounting grows by its length. -/
theorem emit_queue_eq (s : BpfState) (ctx mapRef : Nat) (data : List Nat)
    (hcap : s.capability = true)
    (hfit : s.ringbufUsed + data.length ≤ s.ringbufCap) :
    emit ctx mapRef s data =
      { s with
          reservedRecs := s.reservedRecs ++ [data],
          ringbufUsed := s.ringbufUsed + data.length,
          ringbufQueue := s.ringbufQueue ++ [data] } := by
  have hres : gadget_reserve_buf s mapRef data.length =
      (some (BufHandle.queueRec s.reservedRecs.length),
       { s with
          reservedRecs := s.reservedRecs ++
            [(List.range data.length).map (s.junk s.reservedRecs.length)],
          ringbufUsed := s.ringbufUsed + data.length }) := by
    simp [gadget_reserve_buf, bpf_ringbuf_reserve, hcap, hfit]
  have hdrop : ((List.range data.length).map (s.junk s.reservedRecs.length)).drop data.length
      = ([] : List Nat) := by
    apply List.drop_eq_nil_of_le
    simp
  simp only [emit, hres]
  simp [writeBuf, gadget_submit_buf, bpf_ringbuf_submit, hcap, getD_concat, set_concat, hdrop]

/-- C8: in queue mode, a sequence of reserve / write / submit cycles from
one execution unit that fits in the channel's capacity makes the
submitted records visible to the consumer in exactly the order they were
submitted (FIFO relative to that unit). -/
theorem queue_fifo_order (ctx mapRef : Nat) (datas : List (List Nat)) :
    ∀ s : BpfState, s.capability = true →
      s.ringbufUsed + (datas.map List.length).sum ≤ s.ringbufCap →
      (emitAll ctx mapRef s datas).ringbufQueue = s.ringbufQueue ++ datas := by
  induction datas with
  | nil => intro s _ _; simp [emitAll]
  | cons d rest ih =>
      intro s hcap hfit
      have hfit' : s.ringbufUsed + (d.length + (rest.map List.length).sum) ≤ s.ringbufCap := by
        simpa using hfit
      have hfit1 : s.ringbufUsed + d.length ≤ s.ringbufCap := by omega
      simp only [emitAll, List.foldl_cons]
      rw [emit_queue_eq s ctx mapRef d hcap hfit1]
      have h2 := ih { s with
          reservedRecs := s.reservedRecs ++ [d],
          ringbufUsed := s.ringbufUsed + d.length,
          ringbufQueue := s.ringbufQueue ++ [d] } hcap (by simp; omega)
      simp only [emitAll] at h2
      rw [h2]
      simp

/-- C8 witness: records of 1 and 2 bytes submitted in order from a
concrete queue-mode state. -/
theorem queue_fifo_order_witness :
    (testState true).capability = true ∧
    (testState true).ringbufUsed +
      (([[1], [2, 3]] : List (List Nat)).map List.length).sum ≤ (testState true).ringbufCap ∧
    (emitAll 0 0 (testState true) [[1], [2, 3]]).ringbufQueue
      = (testState true).ringbufQueue ++ [[1], [2, 3]] :=
  ⟨rfl, by decide,
   queue_fifo_order 0 0 [[1], [2, 3]] (testState true) rfl (by decide)⟩

end Buffer
